import Mathlib

/-!
Shallow embedding of `packages/valory/skills/price_estimation_abci/behaviours.py`:
the phase behaviours of the price-estimation ABCI skill.  Agent addresses are
strings (ordered lexicographically, as Python's `sorted` orders them), byte
strings are lists of byte values, and each behaviour's `async_act` is embedded
as the list of externally visible effects (chain writes, signing requests,
payload submissions, log lines) it performs, parametrised by the replies of the
external collaborators (chain client, signing oracle, price source).
-/

/-- An agent address: an opaque address-like identifier, ordered and comparable. -/
abbrev Address := String

/-- A byte string, as the list of its byte values. -/
abbrev Bytes := List Nat

/-- Value of one hexadecimal digit character (model of Python's hex parsing). -/
def hexDigitVal (c : Char) : Nat :=
  if '0' ≤ c ∧ c ≤ '9' then c.toNat - '0'.toNat
  else if 'a' ≤ c ∧ c ≤ 'f' then c.toNat - 'a'.toNat + 10
  else if 'A' ≤ c ∧ c ≤ 'F' then c.toNat - 'A'.toNat + 10
  else 0

/-- Pair up hex digit characters into bytes (helper for `unhexlify`). -/
def unhexChars : List Char → Bytes
  | c1 :: c2 :: rest => (16 * hexDigitVal c1 + hexDigitVal c2) :: unhexChars rest
  | _ => []

/-- Model of `binascii.unhexlify`: decode a hex string into bytes. -/
def unhexlify (s : String) : Bytes := unhexChars s.data

/-- Hexadecimal digit character for a value below 16. -/
def hexDigitChar (n : Nat) : Char :=
  if n < 10 then Char.ofNat ('0'.toNat + n) else Char.ofNat ('a'.toNat + n - 10)

/-- Two lowercase hex characters of one byte. -/
def byteHex (b : Nat) : List Char := [hexDigitChar (b / 16 % 16), hexDigitChar (b % 16)]

/-- Model of Python's `bytes.hex()`: lowercase hex encoding, no prefix. -/
def hexEncode (bs : Bytes) : String := ⟨(bs.map byteHex).flatten⟩

/-- Model of `HexBytes.hex()`: hex encoding with the leading "0x" scheme prefix,
as returned for `safe_tx_hash` by the gnosis helper (behaviours.py line 341
strips the first two characters of it). -/
def hexBytesHex (bs : Bytes) : String := "0x" ++ hexEncode bs

/-- behaviours.py line 60: `SIGNATURE_LENGTH = 65` (bytes of one ECDSA signature). -/
def SIGNATURE_LENGTH : Nat := 65

/-- Modelled from the spec: `DONE_EVENT` is imported from
`abstract_round_abci.behaviour_utils`, which is outside this source slice; the
spec describes it as "a single sentinel \"phase complete\" signal".  Its
concrete value is irrelevant to the workflow, only that it is the one event
every registered transition fires on. -/
def DONE_EVENT : String := "done"

/-- The payloads of `models/payloads.py`, as constructed by the behaviours
(one constructor per phase payload class, first argument the sender address). -/
inductive Payload
  | registration (sender : Address)
  | deploySafe (sender : Address) (contractAddress : Address)
  | observation (sender : Address) (value : ℚ)
  | estimate (sender : Address) (value : ℚ)
  | txHash (sender : Address) (hashHex : String)
  | signature (sender : Address) (signatureHex : String)
  | finalizationTx (sender : Address) (txHash : String)
  deriving DecidableEq, Repr

/-- The sender field of a payload. -/
def Payload.sender : Payload → Address
  | .registration s => s
  | .deploySafe s _ => s
  | .observation s _ => s
  | .estimate s _ => s
  | .txHash s _ => s
  | .signature s _ => s
  | .finalizationTx s _ => s

/-- An observation payload as read back from the period state
(`obs_payload.observation`, behaviours.py line 288). -/
structure ObservationPayload where
  sender : Address
  observation : ℚ
  deriving DecidableEq, Repr

/-- The slice of the replicated Period State the behaviours read
(`self.period_state` accessors used in behaviours.py). -/
structure PeriodState where
  participants : List Address
  safe_sender_address : Address
  safe_contract_address : Address
  encoded_estimate : Bytes
  safe_tx_hash : String
  observations : List ObservationPayload
  participant_to_signature : Address → Option String

/-- Modelled from the spec: `sorted_addresses` is a Period State accessor
defined in `models/rounds.py`, outside this source slice; the spec fixes the
Finalize concatenation order as "ascending order of signer address", so it is
the participant list sorted ascending. -/
def PeriodState.sorted_addresses (st : PeriodState) : List Address :=
  st.participants.insertionSort (· ≤ ·)

/-- Modelled from the spec: `two_thirds_threshold` lives on
`consensus_params` (outside this source slice); the spec fixes it as
`threshold = ceil(2 * N / 3)`, written with natural-number ceiling division. -/
def two_thirds_threshold (n : Nat) : Nat := (2 * n + 2) / 3

/-- The Safe Transaction structure: `(to, value, data, operation,
safe-tx-hash, signatures)` per the spec's data model. -/
structure SafeTx where
  toAddress : Address
  value : Nat
  data : Bytes
  operation : Nat
  safe_tx_hash : Bytes
  signatures : Bytes
  deriving DecidableEq, Repr

/-- Modelled from the spec: the EIP-712 digest computed by the gnosis helper
(outside this source slice) is a deterministic function of the safe contract
address and the call data; the concrete bytes stand in for the real keccak
digest, which chain semantics this spec leaves out of scope. -/
def safeTxDigest (safeAddress : Address) (data : Bytes) : Bytes :=
  unhexlify safeAddress ++ data

/-- Modelled from the spec: `_get_safe_tx` is defined in
`abstract_round_abci.behaviour_utils`, outside this source slice.  The spec
states the Safe Transaction is "built locally and independently by whichever
agent needs it (deterministic function of Period State)"; the agent address
argument is the account used to connect to the chain and does not influence
the built transaction. -/
def get_safe_tx (_agent : Address) (st : PeriodState) (data : Bytes) : SafeTx :=
  { toAddress := st.safe_contract_address
    value := 0
    data := data
    operation := 0
    safe_tx_hash := safeTxDigest st.safe_contract_address data
    signatures := [] }

/-- The chain-writing transaction parameters assembled in
`FinalizeBehaviour._send_safe_transaction` (behaviours.py lines 432-443). -/
structure TransactionDict where
  fromAddr : Address
  gasPrice : Nat
  gas : Nat
  nonce : Nat
  deriving DecidableEq, Repr

/-- Replies of the external collaborators consumed during one pass of the
workflow (chain client and gnosis helper); gathering them in one record keeps
each behaviour a pure function of its inputs. -/
structure ChainEnv where
  /-- Contract address returned by `get_deploy_safe_tx`. -/
  contractAddress : Address
  /-- `transaction_dict["gas"]` as estimated by `w3_tx.buildTransaction`. -/
  estimatedGas : Nat
  /-- `safe_tx.recommended_gas()`. -/
  recommendedGas : Nat
  /-- `safe_tx.gas_price` (0 models Python-falsy None/0). -/
  safeTxGasPrice : Nat
  /-- `safe_tx.w3.eth.gas_price` fallback. -/
  nodeGasPrice : Nat
  /-- `w3.eth.get_transaction_count(address)`. -/
  transaction_count : Address → Nat
  /-- Mined transaction hash returned by `_send_raw_transaction`. -/
  minedTxHash : String

/-- Externally visible effects a behaviour performs, in program order. -/
inductive Effect
  | log (msg : String)
  | deployMultisig (owners : List Address) (threshold : Nat)
  | sendRawTransaction (tx : TransactionDict)
  | signingRequest (message : Bytes) (isDeprecatedMode : Bool)
  | submitPayload (p : Payload)
  deriving DecidableEq, Repr

/-- Chain-writing effects: multisig deployment and raw-transaction sends
(both go through the chain client and mutate chain state). -/
def Effect.isChainWriting : Effect → Bool
  | .deployMultisig _ _ => true
  | .sendRawTransaction _ => true
  | _ => false

/-- Payload-submission effects. -/
def Effect.isPayloadSubmission : Effect → Bool
  | .submitPayload _ => true
  | _ => false

/-- behaviours.py lines 419-426: the Finalize concatenation loop.  Walk the
sorted addresses, skip signers missing from `participant_to_signature`, and
append `unhexlify(signature)` for the rest. -/
def assembleFinalSignature (st : PeriodState) : Bytes :=
  st.sorted_addresses.foldl
    (fun acc signer =>
      match st.participant_to_signature signer with
      | none => acc
      | some signature => acc ++ unhexlify signature)
    []

/-- The signature map the substrate records from a list of `(sender,
signatureHex)` submissions in arrival order, deduplicated by sender
(first admitted payload per sender wins, per the spec's "the substrate must
reject/ignore duplicates per phase"). -/
def recordSignatures (subs : List (Address × String)) (a : Address) : Option String :=
  (subs.find? (fun p => p.1 == a)).map Prod.snd

/-- behaviours.py line 153. -/
def InitialDelayState.state_id : String := "initial_delay"

/-- behaviours.py line 165. -/
def RegistrationBehaviour.state_id : String := "register"

/-- behaviours.py line 189. -/
def DeploySafeBehaviour.state_id : String := "deploy_safe"

/-- behaviours.py line 241. -/
def ObserveBehaviour.state_id : String := "observe"

/-- behaviours.py line 271. -/
def EstimateBehaviour.state_id : String := "estimate"

/-- behaviours.py line 307. -/
def TransactionHashBehaviour.state_id : String := "tx_hash"

/-- behaviours.py line 351. -/
def SignatureBehaviour.state_id : String := "sign"

/-- behaviours.py line 380. -/
def FinalizeBehaviour.state_id : String := "finalize"

/-- behaviours.py line 452. -/
def EndBehaviour.state_id : String := "end"

/-- The finite-state machine the controller assembles: registered states, the
initial state, and transitions `(source, destination, event)` in registration
order — the observable outcome of `FSMBehaviour.register_state` /
`register_transition`. -/
structure FSM where
  initial : Option String
  states : List String
  transitions : List (String × String × String)
  deriving DecidableEq, Repr

/-- behaviours.py lines 85-98, `_register_states`: fail on an empty list
(`enforce(len(state_classes) != 0, "empty list of state classes")`), register
the first state as initial and the rest after it, then for each index one
transition from `state_classes[index]` to `state_classes[index + 1]` fired by
`DONE_EVENT`. -/
def register_states (ids : List String) : Except String FSM :=
  if ids.length = 0 then .error "empty list of state classes"
  else .ok
    { initial := ids.head?
      states := ids
      transitions := (ids.zip ids.tail).map (fun p => (p.1, p.2, DONE_EVENT)) }

/-- behaviours.py lines 66-80, `PriceEstimationConsensusBehaviour.setup`:
register the nine phases in their fixed order. -/
def PriceEstimationConsensusBehaviour.setup : Except String FSM :=
  register_states
    [ InitialDelayState.state_id
    , RegistrationBehaviour.state_id
    , DeploySafeBehaviour.state_id
    , ObserveBehaviour.state_id
    , EstimateBehaviour.state_id
    , TransactionHashBehaviour.state_id
    , SignatureBehaviour.state_id
    , FinalizeBehaviour.state_id
    , EndBehaviour.state_id ]

/-- behaviours.py lines 167-183, `RegistrationBehaviour.async_act`: submit a
`RegistrationPayload(self.context.agent_address)`. -/
def RegistrationBehaviour.async_act (agent : Address) : List Effect :=
  [.submitPayload (.registration agent)]

/-- behaviours.py lines 212-214, 327-329, 393-397: the message each
non-designated branch logs. -/
def notDesignatedMsg : String :=
  "I am not the designated sender, waiting until next round..."

/-- behaviours.py lines 226-235, `DeploySafeBehaviour._send_deploy_transaction`:
build the deployment transaction via `get_deploy_safe_tx(url, agent,
list(participants), two_thirds_threshold)` and send it as a raw transaction;
the helper also returns the future contract address. -/
def DeploySafeBehaviour.send_deploy_transaction (st : PeriodState) : Effect :=
  .deployMultisig st.participants (two_thirds_threshold st.participants.length)

/-- behaviours.py lines 191-224, `DeploySafeBehaviour.async_act`: a
non-designated agent only logs and waits; the designated sender deploys the
safe and submits `DeploySafePayload(agent, contract_address)`. -/
def DeploySafeBehaviour.async_act (agent : Address) (st : PeriodState)
    (env : ChainEnv) : List Effect :=
  if agent ≠ st.safe_sender_address then
    [.log notDesignatedMsg]
  else
    [ DeploySafeBehaviour.send_deploy_transaction st
    , .submitPayload (.deploySafe agent env.contractAddress) ]

/-- behaviours.py lines 243-265, `ObserveBehaviour.async_act`: query the price
source and submit `ObservationPayload(agent, observation)`. -/
def ObserveBehaviour.async_act (agent : Address) (observation : ℚ) : List Effect :=
  [.submitPayload (.observation agent observation)]

/-- behaviours.py lines 273-301, `EstimateBehaviour.async_act`: aggregate the
recorded observations with the pluggable estimator and submit
`EstimatePayload(agent, estimate)`. -/
def EstimateBehaviour.async_act (agent : Address) (st : PeriodState)
    (aggregate : List ℚ → ℚ) : List Effect :=
  [.submitPayload (.estimate agent
    (aggregate (st.observations.map (fun p => p.observation))))]

/-- behaviours.py lines 339-341: the hex string committed by the TxHash phase,
`safe_tx.safe_tx_hash.hex()[2:]` for the safe transaction built over
`period_state.encoded_estimate`. -/
def TransactionHashBehaviour.safe_tx_hash_hex (agent : Address)
    (st : PeriodState) : String :=
  ⟨(hexBytesHex (get_safe_tx agent st st.encoded_estimate).safe_tx_hash).data.drop 2⟩

/-- behaviours.py lines 331-345, `TransactionHashBehaviour.sender_act`: build
the safe transaction, hash it, and submit `TransactionHashPayload`. -/
def TransactionHashBehaviour.sender_act (agent : Address) (st : PeriodState) :
    List Effect :=
  [.submitPayload (.txHash agent (TransactionHashBehaviour.safe_tx_hash_hex agent st))]

/-- behaviours.py lines 309-329, `TransactionHashBehaviour.async_act`: only the
designated sender commits the transaction hash; others log and wait. -/
def TransactionHashBehaviour.async_act (agent : Address) (st : PeriodState) :
    List Effect :=
  if agent ≠ st.safe_sender_address then
    [.log notDesignatedMsg]
  else
    TransactionHashBehaviour.sender_act agent st

/-- behaviours.py lines 364-374, `SignatureBehaviour._get_safe_tx_signature`:
request a signature over `unhexlify(period_state.safe_tx_hash)` with
`is_deprecated_mode=True`, then return the oracle's response minus its first
two characters (`signature_hex[2:]`, "remove the leading 0x").  The pair is
(signing request issued, signature hex returned). -/
def SignatureBehaviour.get_safe_tx_signature (st : PeriodState)
    (signatureResponse : String) : Effect × String :=
  ( .signingRequest (unhexlify st.safe_tx_hash) true
  , ⟨signatureResponse.data.drop 2⟩ )

/-- behaviours.py lines 353-362, `SignatureBehaviour.async_act`: obtain the
signature and submit `SignaturePayload(agent, signature_hex)`. -/
def SignatureBehaviour.async_act (agent : Address) (st : PeriodState)
    (signatureResponse : String) : List Effect :=
  [ (SignatureBehaviour.get_safe_tx_signature st signatureResponse).1
  , .submitPayload (.signature agent
      (SignatureBehaviour.get_safe_tx_signature st signatureResponse).2) ]

/-- behaviours.py lines 415-446, `FinalizeBehaviour._send_safe_transaction`:
rebuild the safe transaction over `encoded_estimate`, attach the sorted
signature concatenation, then assemble the raw transaction parameters with
`gasPrice = safe_tx.gas_price or w3.eth.gas_price`,
`gas = max(estimated + 75000, recommended_gas())` and
`nonce = get_transaction_count(agent)`. -/
def FinalizeBehaviour.send_safe_transaction (agent : Address) (st : PeriodState)
    (env : ChainEnv) : SafeTx × TransactionDict :=
  let data := st.encoded_estimate
  let final_signature := assembleFinalSignature st
  let safe_tx := { get_safe_tx agent st data with signatures := final_signature }
  let tx_gas_price :=
    if env.safeTxGasPrice ≠ 0 then env.safeTxGasPrice else env.nodeGasPrice
  ( safe_tx
  , { fromAddr := agent
      gasPrice := tx_gas_price
      gas := max (env.estimatedGas + 75000) env.recommendedGas
      nonce := env.transaction_count agent } )

/-- behaviours.py lines 399-413, `FinalizeBehaviour.sender_act`: send the safe
transaction as a raw transaction and submit
`FinalizationTxPayload(agent, tx_hash)`. -/
def FinalizeBehaviour.sender_act (agent : Address) (st : PeriodState)
    (env : ChainEnv) : List Effect :=
  [ .sendRawTransaction (FinalizeBehaviour.send_safe_transaction agent st env).2
  , .submitPayload (.finalizationTx agent env.minedTxHash) ]

/-- behaviours.py lines 382-397, `FinalizeBehaviour.async_act`: only the
designated sender finalizes; others log and wait. -/
def FinalizeBehaviour.async_act (agent : Address) (st : PeriodState)
    (env : ChainEnv) : List Effect :=
  if agent ≠ st.safe_sender_address then
    [.log notDesignatedMsg]
  else
    FinalizeBehaviour.sender_act agent st env

/-- Concrete period state used by the witnesses: three registered
participants, designated sender "0xaa", two recorded signatures. -/
def stA : PeriodState :=
  { participants := ["0xbb", "0xaa", "0xcc"]
    safe_sender_address := "0xaa"
    safe_contract_address := "5afe"
    encoded_estimate := [1, 2]
    safe_tx_hash := "abcd"
    observations := [{ sender := "0xaa", observation := 100 }]
    participant_to_signature := recordSignatures [("0xbb", "1f"), ("0xaa", "2e")] }

/-- Concrete chain-client replies used by the witnesses. -/
def envA : ChainEnv :=
  { contractAddress := "5afe"
    estimatedGas := 100000
    recommendedGas := 150000
    safeTxGasPrice := 0
    nodeGasPrice := 7
    transaction_count := fun _ => 42
    minedTxHash := "f00d" }

/-- The nine-phase machine `setup` registers. -/
def phaseChain : FSM :=
  { initial := some "initial_delay"
    states := ["initial_delay", "register", "deploy_safe", "observe", "estimate",
               "tx_hash", "sign", "finalize", "end"]
    transitions :=
      [ ("initial_delay", "register", DONE_EVENT)
      , ("register", "deploy_safe", DONE_EVENT)
      , ("deploy_safe", "observe", DONE_EVENT)
      , ("observe", "estimate", DONE_EVENT)
      , ("estimate", "tx_hash", DONE_EVENT)
      , ("tx_hash", "sign", DONE_EVENT)
      , ("sign", "finalize", DONE_EVENT)
      , ("finalize", "end", DONE_EVENT) ] }

/-- C2: in the Finalize phase, the chain-writing transaction built by the
designated sender has gas `max(estimatedGas + 75000, recommendedGas)` — in
particular 175000 for (100000, 150000) and 275000 for (200000, 150000) — and
nonce equal to the chain client's transaction count for the agent's own
address. -/
theorem finalize_gas_and_nonce (agent : Address) (st : PeriodState)
    (env : ChainEnv) :
    (FinalizeBehaviour.send_safe_transaction agent st env).2.gas
        = max (env.estimatedGas + 75000) env.recommendedGas
    ∧ (FinalizeBehaviour.send_safe_transaction agent st env).2.nonce
        = env.transaction_count agent
    ∧ (FinalizeBehaviour.send_safe_transaction agent st
        { env with estimatedGas := 100000, recommendedGas := 150000 }).2.gas
        = 175000
    ∧ (FinalizeBehaviour.send_safe_transaction agent st
        { env with estimatedGas := 200000, recommendedGas := 150000 }).2.gas
        = 275000 := by
  refine ⟨?_, ?_, ?_, ?_⟩
  · simp [FinalizeBehaviour.send_safe_transaction]
  · simp [FinalizeBehaviour.send_safe_transaction]
  · norm_num [FinalizeBehaviour.send_safe_transaction]
  · norm_num [FinalizeBehaviour.send_safe_transaction]

/-- C3: in the Deploy-Safe phase the designated agent deploys the multisig
with owner list the recorded participant set and threshold `ceil(2N/3)` of the
participant-set size (the least `t` with `3t ≥ 2N`); boundary cases
`N=1→1`, `N=3→2`, `N=4→3`. -/
theorem deploy_safe_owners_and_threshold (agent : Address) (st : PeriodState)
    (env : ChainEnv) (h : agent = st.safe_sender_address) :
    Effect.deployMultisig st.participants
        (two_thirds_threshold st.participants.length)
      ∈ DeploySafeBehaviour.async_act agent st env
    ∧ 2 * st.participants.length
        ≤ 3 * two_thirds_threshold st.participants.length
    ∧ (∀ m, 2 * st.participants.length ≤ 3 * m →
        two_thirds_threshold st.participants.length ≤ m)
    ∧ two_thirds_threshold 1 = 1
    ∧ two_thirds_threshold 3 = 2
    ∧ two_thirds_threshold 4 = 3 := by
  refine ⟨?_, ?_, ?_, rfl, rfl, rfl⟩
  · simp [DeploySafeBehaviour.async_act, h,
      DeploySafeBehaviour.send_deploy_transaction]
  · unfold two_thirds_threshold; omega
  · intro m hm; unfold two_thirds_threshold; omega

/-- Witness for C3 at the concrete fixture: "0xaa" is the designated sender
of `stA`, owning a 3-participant set with threshold 2. -/
theorem deploy_safe_owners_and_threshold_witness :
    Effect.deployMultisig stA.participants
        (two_thirds_threshold stA.participants.length)
      ∈ DeploySafeBehaviour.async_act "0xaa" stA envA
    ∧ 2 * stA.participants.length
        ≤ 3 * two_thirds_threshold stA.participants.length
    ∧ (∀ m, 2 * stA.participants.length ≤ 3 * m →
        two_thirds_threshold stA.participants.length ≤ m)
    ∧ two_thirds_threshold 1 = 1
    ∧ two_thirds_threshold 3 = 2
    ∧ two_thirds_threshold 4 = 3 :=
  deploy_safe_owners_and_threshold "0xaa" stA envA rfl

/-- C6: the registered phase chain is exactly the nine phases in order, each
non-terminal phase has exactly one outgoing transition — to its immediate
successor, fired by the single DONE event — the terminal "end" phase has no
successor, no phase is a transition target twice, and the initial phase is
never re-entered. -/
theorem phase_chain_strictly_linear :
    PriceEstimationConsensusBehaviour.setup = Except.ok phaseChain
    ∧ phaseChain.initial = some "initial_delay"
    ∧ phaseChain.states = ["initial_delay", "register", "deploy_safe", "observe",
        "estimate", "tx_hash", "sign", "finalize", "end"]
    ∧ phaseChain.transitions
        = (phaseChain.states.zip phaseChain.states.tail).map
            (fun p => (p.1, p.2, DONE_EVENT))
    ∧ (∀ t ∈ phaseChain.transitions, t.2.2 = DONE_EVENT)
    ∧ (∀ s ∈ phaseChain.states, s ≠ "end" →
        (phaseChain.transitions.filter (fun t => t.1 == s)).length = 1)
    ∧ (phaseChain.transitions.filter (fun t => t.1 == "end")).length = 0
    ∧ (∀ s ∈ phaseChain.states, s ≠ "initial_delay" →
        (phaseChain.transitions.filter (fun t => t.2.1 == s)).length = 1)
    ∧ (phaseChain.transitions.filter (fun t => t.2.1 == "initial_delay")).length
        = 0
    ∧ phaseChain.states.Nodup :=
  ⟨rfl, by decide⟩

/-- C7: `_register_states` fails with "empty list of state classes" on the
empty list; on any non-empty list it registers the first element as initial
and creates, for each consecutive pair, exactly one transition fired by the
DONE sentinel. -/
theorem register_states_contract (ids : List String) (h : ids ≠ []) :
    register_states [] = Except.error "empty list of state classes"
    ∧ ∃ fsm, register_states ids = Except.ok fsm
        ∧ fsm.initial = ids.head?
        ∧ fsm.states = ids
        ∧ fsm.transitions.length = ids.length - 1
        ∧ ∀ i, (hi : i + 1 < ids.length) →
            fsm.transitions[i]?
              = some (ids.get ⟨i, by omega⟩, ids.get ⟨i + 1, hi⟩, DONE_EVENT) := by
  have hne : ¬ ids.length = 0 := by simpa using h
  have hok : register_states ids = Except.ok
      { initial := ids.head?
        states := ids
        transitions := (ids.zip ids.tail).map (fun p => (p.1, p.2, DONE_EVENT)) } := by
    simp [register_states, hne]
  refine ⟨rfl, ⟨_, hok, rfl, rfl, ?_, ?_⟩⟩
  · simp [List.length_zip]
  · intro i hi
    have hzl : (ids.zip ids.tail).length = ids.length - 1 := by
      simp [List.length_zip]
    have hib : i < ((ids.zip ids.tail).map
        (fun p => (p.1, p.2, DONE_EVENT))).length := by
      simp [hzl]; omega
    rw [List.getElem?_eq_getElem hib]
    simp [List.getElem_zip, List.getElem_tail]

/-- Witness for C7 at the two-element list ["a", "b"]. -/
theorem register_states_contract_witness :
    register_states [] = Except.error "empty list of state classes"
    ∧ ∃ fsm, register_states ["a", "b"] = Except.ok fsm
        ∧ fsm.initial = (["a", "b"] : List String).head?
        ∧ fsm.states = ["a", "b"]
        ∧ fsm.transitions.length = (["a", "b"] : List String).length - 1
        ∧ ∀ i, (hi : i + 1 < (["a", "b"] : List String).length) →
            fsm.transitions[i]?
              = some ((["a", "b"] : List String).get ⟨i, by omega⟩,
                  (["a", "b"] : List String).get ⟨i + 1, hi⟩, DONE_EVENT) :=
  register_states_contract ["a", "b"] (by decide)

/-- C5: an agent whose address differs from the recorded designated sender
takes the log-and-wait branch in the Deploy-Safe, TxHash and Finalize phases,
performing no chain write and submitting no payload; and in those phases any
chain-writing or payload-submitting effect is performed only by the recorded
designated sender. -/
theorem non_designated_never_chain_writes (agent : Address) (st : PeriodState)
    (env : ChainEnv) (h : agent ≠ st.safe_sender_address) :
    DeploySafeBehaviour.async_act agent st env = [.log notDesignatedMsg]
    ∧ TransactionHashBehaviour.async_act agent st = [.log notDesignatedMsg]
    ∧ FinalizeBehaviour.async_act agent st env = [.log notDesignatedMsg]
    ∧ (∀ (a : Address) (e : Effect),
        (e ∈ DeploySafeBehaviour.async_act a st env
          ∨ e ∈ TransactionHashBehaviour.async_act a st
          ∨ e ∈ FinalizeBehaviour.async_act a st env) →
        (e.isChainWriting = true ∨ e.isPayloadSubmission = true) →
        a = st.safe_sender_address) := by
  refine ⟨by simp [DeploySafeBehaviour.async_act, h],
    by simp [TransactionHashBehaviour.async_act, h],
    by simp [FinalizeBehaviour.async_act, h], ?_⟩
  intro a e hm he
  by_cases ha : a = st.safe_sender_address
  · exact ha
  · exfalso
    have hd : DeploySafeBehaviour.async_act a st env = [.log notDesignatedMsg] := by
      simp [DeploySafeBehaviour.async_act, ha]
    have ht : TransactionHashBehaviour.async_act a st = [.log notDesignatedMsg] := by
      simp [TransactionHashBehaviour.async_act, ha]
    have hf : FinalizeBehaviour.async_act a st env = [.log notDesignatedMsg] := by
      simp [FinalizeBehaviour.async_act, ha]
    rw [hd, ht, hf] at hm
    have he2 : e = Effect.log notDesignatedMsg := by
      rcases hm with hm | hm | hm <;> simpa using hm
    subst he2
    simp [Effect.isChainWriting, Effect.isPayloadSubmission] at he

/-- Witness for C5: "0xdd" is not the designated sender of `stA`. -/
theorem non_designated_never_chain_writes_witness :
    DeploySafeBehaviour.async_act "0xdd" stA envA = [.log notDesignatedMsg]
    ∧ TransactionHashBehaviour.async_act "0xdd" stA = [.log notDesignatedMsg]
    ∧ FinalizeBehaviour.async_act "0xdd" stA envA = [.log notDesignatedMsg]
    ∧ (∀ (a : Address) (e : Effect),
        (e ∈ DeploySafeBehaviour.async_act a stA envA
          ∨ e ∈ TransactionHashBehaviour.async_act a stA
          ∨ e ∈ FinalizeBehaviour.async_act a stA envA) →
        (e.isChainWriting = true ∨ e.isPayloadSubmission = true) →
        a = stA.safe_sender_address) :=
  non_designated_never_chain_writes "0xdd" stA envA (by decide)

/-- C8: every agent's Signature phase issues a signing request over the bytes
of the agreed transaction hash in the legacy/deprecated raw-hash mode
(`is_deprecated_mode=True`), and the emitted Signature payload carries exactly
the oracle's response with its leading "0x" scheme prefix removed. -/
theorem signature_deprecated_mode_and_stripped (agent : Address)
    (st : PeriodState) (rest : String) (signatureResponse : String)
    (h : signatureResponse.data = '0' :: 'x' :: rest.data) :
    SignatureBehaviour.async_act agent st signatureResponse
      = [ .signingRequest (unhexlify st.safe_tx_hash) true
        , .submitPayload (.signature agent rest) ] := by
  simp only [SignatureBehaviour.async_act, SignatureBehaviour.get_safe_tx_signature, h]
  rfl

/-- Witness for C8 at the response "0xab". -/
theorem signature_deprecated_mode_and_stripped_witness :
    SignatureBehaviour.async_act "0xaa" stA "0xab"
      = [ .signingRequest (unhexlify stA.safe_tx_hash) true
        , .submitPayload (.signature "0xaa" "ab") ] :=
  signature_deprecated_mode_and_stripped "0xaa" stA "ab" "0xab" rfl

/-- C4 evaluation: on the malformed oracle response "deadbeef" (which has no
"0x" scheme prefix and is far shorter than the 130 hex characters of a
65-byte signature) the Signature phase does not reject: it unconditionally
strips the first two characters and submits the corrupt payload "adbeef";
the declared `SIGNATURE_LENGTH` is never checked. -/
theorem malformed_signature_not_rejected :
    (SignatureBehaviour.get_safe_tx_signature stA "deadbeef").2 = "adbeef"
    ∧ ("adbeef".length ≠ 2 * SIGNATURE_LENGTH)
    ∧ Effect.submitPayload (.signature "0xaa" "adbeef")
        ∈ SignatureBehaviour.async_act "0xaa" stA "deadbeef" := by
  refine ⟨rfl, by decide, ?_⟩
  simp [SignatureBehaviour.async_act, SignatureBehaviour.get_safe_tx_signature]

/-- C9: the Safe Transaction is a deterministic function of the Period State:
any two agents build byte-identical structures over the same state, the
Finalize phase rebuilds exactly the structure the TxHash phase built (only
attaching the signature concatenation, which leaves the hash field untouched),
and the hex string committed in the TxHash phase is the hash of the
transaction the Finalize phase signs and sends. -/
theorem safe_tx_deterministic (st : PeriodState) (a b : Address)
    (env : ChainEnv) :
    get_safe_tx a st st.encoded_estimate = get_safe_tx b st st.encoded_estimate
    ∧ (FinalizeBehaviour.send_safe_transaction a st env).1
        = { get_safe_tx a st st.encoded_estimate with
            signatures := assembleFinalSignature st }
    ∧ (FinalizeBehaviour.send_safe_transaction a st env).1.safe_tx_hash
        = (get_safe_tx a st st.encoded_estimate).safe_tx_hash
    ∧ TransactionHashBehaviour.safe_tx_hash_hex a st
        = hexEncode (FinalizeBehaviour.send_safe_transaction a st env).1.safe_tx_hash := by
  have hdrop : ∀ s : String, (("0x" ++ s).data.drop 2) = s.data := by
    intro s; rw [String.data_append]; rfl
  refine ⟨rfl, ?_, ?_, ?_⟩
  · simp [FinalizeBehaviour.send_safe_transaction]
  · simp [FinalizeBehaviour.send_safe_transaction]
  · simp [TransactionHashBehaviour.safe_tx_hash_hex, hexBytesHex,
      FinalizeBehaviour.send_safe_transaction, hdrop]

/-- C10: every payload a behaviour submits, in any phase, carries the
submitting agent's own address as its sender field. -/
theorem payload_sender_is_own_address (agent : Address) (st : PeriodState)
    (env : ChainEnv) (observation : ℚ) (aggregate : List ℚ → ℚ)
    (signatureResponse : String) (p : Payload)
    (h : Effect.submitPayload p ∈
        RegistrationBehaviour.async_act agent
        ++ DeploySafeBehaviour.async_act agent st env
        ++ ObserveBehaviour.async_act agent observation
        ++ EstimateBehaviour.async_act agent st aggregate
        ++ TransactionHashBehaviour.async_act agent st
        ++ SignatureBehaviour.async_act agent st signatureResponse
        ++ FinalizeBehaviour.async_act agent st env) :
    p.sender = agent := by
  by_cases hd : agent = st.safe_sender_address
  · subst hd
    simp [RegistrationBehaviour.async_act, DeploySafeBehaviour.async_act,
      ObserveBehaviour.async_act, EstimateBehaviour.async_act,
      TransactionHashBehaviour.async_act, TransactionHashBehaviour.sender_act,
      SignatureBehaviour.async_act, FinalizeBehaviour.async_act,
      FinalizeBehaviour.sender_act, DeploySafeBehaviour.send_deploy_transaction,
      SignatureBehaviour.get_safe_tx_signature] at h
    rcases h with rfl | rfl | rfl | rfl | rfl | rfl | rfl <;> rfl
  · simp [RegistrationBehaviour.async_act, DeploySafeBehaviour.async_act,
      ObserveBehaviour.async_act, EstimateBehaviour.async_act,
      TransactionHashBehaviour.async_act, TransactionHashBehaviour.sender_act,
      SignatureBehaviour.async_act, FinalizeBehaviour.async_act,
      FinalizeBehaviour.sender_act, DeploySafeBehaviour.send_deploy_transaction,
      SignatureBehaviour.get_safe_tx_signature, hd] at h
    rcases h with rfl | rfl | rfl | rfl <;> rfl

/-- Witness for C10: the registration payload of "0xaa" in the concrete run. -/
theorem payload_sender_is_own_address_witness :
    (Payload.registration "0xaa").sender = "0xaa" :=
  payload_sender_is_own_address "0xaa" stA envA 100 (fun _ => 0) "0xab"
    (Payload.registration "0xaa") (by decide)

/-- Folding the Finalize loop body over any signer list equals the flat
concatenation of the decoded signatures of those signers that have one
recorded; signers without a recorded signature contribute no bytes. -/
theorem foldl_skip_none (sigs : Address → Option String) :
    ∀ (l : List Address) (init : Bytes),
      l.foldl (fun acc signer =>
          match sigs signer with
          | none => acc
          | some signature => acc ++ unhexlify signature) init
        = init ++ ((l.filter (fun a => (sigs a).isSome)).map
            (fun a => unhexlify ((sigs a).getD ""))).flatten := by
  intro l
  induction l with
  | nil => intro init; simp
  | cons a l ih =>
    intro init
    cases hf : sigs a with
    | none => simp [hf, ih]
    | some s => simp [hf, ih]

/-- With pairwise-distinct senders, looking up the first submission of a given
sender is invariant under permutation of the submission list. -/
theorem find?_sender_perm {l l2 : List (Address × String)} (h : l.Perm l2) :
    (l.map Prod.fst).Nodup → ∀ a : Address,
      l.find? (fun p => p.1 == a) = l2.find? (fun p => p.1 == a) := by
  induction h with
  | nil => intro _ _; rfl
  | cons x h ih =>
    intro hnd a
    simp only [List.map_cons, List.nodup_cons] at hnd
    by_cases hx : x.1 = a
    · simp [List.find?_cons, hx]
    · simp [List.find?_cons, hx, ih hnd.2 a]
  | swap x y l =>
    intro hnd a
    have hxy : y.1 ≠ x.1 := by
      simp only [List.map_cons, List.nodup_cons, List.mem_cons] at hnd
      intro hc; exact hnd.1 (Or.inl hc)
    by_cases hy : y.1 = a
    · by_cases hx : x.1 = a
      · exact absurd (hy.trans hx.symm) hxy
      · simp [List.find?_cons, hy, hx]
    · by_cases hx : x.1 = a
      · simp [List.find?_cons, hy, hx]
      · simp [List.find?_cons, hy, hx]
  | trans h1 h2 ih1 ih2 =>
    intro hnd a
    exact (ih1 hnd a).trans (ih2 (((h1.map Prod.fst).nodup_iff).mp hnd) a)

/-- C1: the final signature assembled in the Finalize phase equals the
concatenation of each signer's signature bytes taken in ascending order of
signer address over exactly those participants with a recorded Signature
payload (the rest contribute no bytes), and it is independent of the order in
which the signatures were submitted. -/
theorem final_signature_sorted_concat (st : PeriodState)
    (subs subs2 : List (Address × String))
    (hperm : subs.Perm subs2) (hnd : (subs.map Prod.fst).Nodup) :
    assembleFinalSignature st
      = ((st.sorted_addresses.filter
            (fun a => (st.participant_to_signature a).isSome)).map
          (fun a => unhexlify ((st.participant_to_signature a).getD ""))).flatten
    ∧ List.Sorted (· ≤ ·) st.sorted_addresses
    ∧ st.sorted_addresses.Perm st.participants
    ∧ assembleFinalSignature
        { st with participant_to_signature := recordSignatures subs }
      = assembleFinalSignature
        { st with participant_to_signature := recordSignatures subs2 } := by
  refine ⟨?_, ?_, ?_, ?_⟩
  · simpa [assembleFinalSignature]
      using foldl_skip_none st.participant_to_signature st.sorted_addresses []
  · exact List.sorted_insertionSort _ _
  · exact List.perm_insertionSort _ _
  · have hrec : recordSignatures subs = recordSignatures subs2 := by
      funext a
      unfold recordSignatures
      rw [find?_sender_perm hperm hnd a]
    rw [hrec]

/-- Witness for C1 at the concrete fixture: two signatures submitted in the
two possible orders yield the same final concatenation, assembled ascending. -/
theorem final_signature_sorted_concat_witness :
    assembleFinalSignature stA
      = ((stA.sorted_addresses.filter
            (fun a => (stA.participant_to_signature a).isSome)).map
          (fun a => unhexlify ((stA.participant_to_signature a).getD ""))).flatten
    ∧ List.Sorted (· ≤ ·) stA.sorted_addresses
    ∧ stA.sorted_addresses.Perm stA.participants
    ∧ assembleFinalSignature
        { stA with participant_to_signature :=
            recordSignatures [("0xbb", "1f"), ("0xaa", "2e")] }
      = assembleFinalSignature
        { stA with participant_to_signature :=
            recordSignatures [("0xaa", "2e"), ("0xbb", "1f")] } :=
  final_signature_sorted_concat stA [("0xbb", "1f"), ("0xaa", "2e")]
    [("0xaa", "2e"), ("0xbb", "1f")]
    (List.Perm.swap ("0xaa", "2e") ("0xbb", "1f") []) (by decide)
